import Mathlib

/-
Shallow embedding of the task-executor orchestration engine of
`src/services/AgentOrchestrator.js`.

Modelling conventions:
- JavaScript `Map` objects (`agentInstances`, the tracker metrics map) are
  association lists `List (Nat × _)` / `List (String × _)` in insertion order;
  `Map.set` updates the value in place when the key is present and appends
  otherwise (`setEntry`), `Map.get` is `List.lookup`.
- Instance ids are produced by `uuidv4()`; freshness of generated uuids is
  modelled by a counter `nextId` carried in the orchestrator state.
- Numbers (success rates, durations) are rationals; the concrete values the
  claims mention (0.5, 0.92, ...) are exactly representable in both binary
  floating point and in `Rat`, so no rounding is lost.
- External effects are explicit: the SQL store is an external collaborator
  (its reads appear as oracle parameters, its writes are ignored), `emit` /
  `io.emit` append an `Event` to an event log carried in the state, and the
  result or failure of an Execution Unit invocation (`instance.execute`,
  which performs database I/O) is an `ExecOutcome` oracle parameter, with the
  wall-clock duration of the call a further parameter.
- Wall-clock-only fields (`lastRun`, `lastExecution`, both `Date` values that
  no modelled operation reads) are omitted.
- Exceptions are modelled with `Except`; a JavaScript `try`/`catch` that
  swallows the error becomes a total function, one that rethrows returns the
  error as a value together with the state as mutated up to the throw.
-/

namespace OfficeAutomation

/-- Status of an agent instance, the `status` strings of the source
(`idle`, `running`, `paused`, `error` — the check constraint of the
`user_agents` table admits exactly these four). -/
inductive AgentStatus
  | idle
  | running
  | paused
  | error
  deriving DecidableEq, Repr

/-- Configuration objects (JSONB blobs); keys with opaque values. -/
abbrev Config := List (String × String)

/-- Lookup in an association list modelling `Map.get`: the value stored
under the key, `none` (`undefined`) when the key is absent. -/
def getEntry {kt vt : Type} [DecidableEq kt] : List (kt × vt) → kt → Option vt
  | [], _ => none
  | p :: t, k => if p.1 = k then some p.2 else getEntry t k

/-- Spread-merge `\x7b ...a, ...b \x7d` of two configuration objects: keys of
`b` override keys of `a`. -/
def mergeConfig (a b : Config) : Config :=
  a.filter (fun p => (getEntry b p.1).isNone) ++ b

/-- Per-instance metrics of `BaseAgent` (`this.metrics`); the `lastRun` date
is omitted (wall clock, never read by the modelled operations). -/
structure AgentMetrics where
  totalRuns : Nat
  successRate : ℚ
  averageExecutionTime : ℚ
  deriving DecidableEq, Repr

namespace BaseAgent

/-- Initial metrics assigned in the `BaseAgent` constructor. -/
def initialMetrics : AgentMetrics :=
  { totalRuns := 0, successRate := 0, averageExecutionTime := 0 }

/-- Model of `BaseAgent.updateMetrics(success, executionTime)`: increments `totalRuns`
and folds the new sample into `successRate` and `averageExecutionTime` with
the running-average formula
`newAvg = (oldAvg * (totalRuns - 1) + sample) / totalRuns`
(the `totalRuns - 1` reads the value from before the increment, as the source
increments first). -/
def updateMetrics (m : AgentMetrics) (success : Bool) (executionTime : ℚ) : AgentMetrics :=
  let totalRuns := m.totalRuns + 1
  { totalRuns := totalRuns,
    successRate :=
      (m.successRate * ((totalRuns : ℚ) - 1) + (if success then 1 else 0)) / (totalRuns : ℚ),
    averageExecutionTime :=
      (m.averageExecutionTime * ((totalRuns : ℚ) - 1) + executionTime) / (totalRuns : ℚ) }

end BaseAgent

/-- One agent instance as stored in `agentInstances`: the fields of the
`BaseAgent` constructor (the `db` and `orchestrator` back-references are
external collaborators and are not part of the data). `agentId` is the key
that was passed to `createAgentInstance` and under which the definition was
found in the `agents` map; it doubles as the key used for coordination-rule
lookups in `checkConflicts`. -/
structure AgentInstance where
  id : Nat
  userId : String
  agentId : String
  config : Config
  status : AgentStatus
  metrics : AgentMetrics
  deriving DecidableEq, Repr

/-- Whether the agent object exposes a `pause` method, tested by
`pauseAgent` as `instance && instance.pause`. `BaseAgent` and all four
subclasses (`MeetingAgent`, `MailSummarizerAgent`, `ReportGeneratorAgent`,
`TaskRouterAgent`) define no `pause` method, so the test is false for every
instance the orchestrator can create. -/
def instanceHasPause (_inst : AgentInstance) : Bool := false

/-- An entry of the `agents` map: the database row (of which only the
default `configuration` is read by the modelled operations) together with
the resolved agent class; the per-definition `instances` sub-map is written
but never read by any modelled operation and is omitted. -/
structure AgentDef where
  type : String
  configuration : Config
  deriving DecidableEq, Repr

/-- A coordination rule: the value type of the `coordinationRules` map. -/
structure CoordinationRule where
  dependencies : List String
  conflicts : List String
  priority : Nat
  deriving DecidableEq, Repr

/-- The static rule table installed by `setupCoordinationRules`, keyed by
the four unit-type names; `Map.get` on any other key yields `undefined`
(`none`). -/
def coordinationRules (t : String) : Option CoordinationRule :=
  if t = "meeting-agent" then
    some { dependencies := ["mail-summarizer"], conflicts := ["task-router"], priority := 1 }
  else if t = "mail-summarizer" then
    some { dependencies := [], conflicts := [], priority := 2 }
  else if t = "report-generator" then
    some { dependencies := ["meeting-agent", "mail-summarizer", "task-router"],
           conflicts := [], priority := 3 }
  else if t = "task-router" then
    some { dependencies := ["mail-summarizer"], conflicts := ["meeting-agent"], priority := 2 }
  else
    none

/-- The result object returned by an Execution Unit (`execute`). The agent
results are database-dependent payloads; none of the four agents puts an
`error` or an `executionTime` key into its result, but `recordExecution`
reads both, so the model keeps the two fields (a missing key is `false`
resp. `none`) next to an opaque payload. -/
structure RunResult where
  payload : String := ""
  errorField : Bool := false
  executionTime : Option ℚ := none
  deriving DecidableEq, Repr

/-- Outcome of one Execution Unit invocation: the `execute` call either
returns a result or throws. Supplied as an oracle because `execute`
depends on the external database. -/
inductive ExecOutcome
  | success (result : RunResult)
  | failure (err : String)
  deriving DecidableEq, Repr

/-- Per-instance record of the `PerformanceTracker` metrics map; the
`lastExecution` date is omitted (wall clock, never read). -/
structure TrackerMetrics where
  totalExecutions : Nat
  successfulExecutions : Nat
  totalExecutionTime : ℚ
  deriving DecidableEq, Repr

/-- Events published through `this.emit` and `io.emit`. -/
inductive Event
  | agentCreated (instanceId : Nat) (userId agentId : String)
  | statusChanged (instanceId : Nat) (agentId : String) (status : AgentStatus) (userId : String)
  | agentCompleted (instanceId : Nat) (result : RunResult)
  | agentResult (instanceId : Nat) (agentId : String) (result : RunResult)
  | agentQueued (instanceId : Nat)
  deriving DecidableEq, Repr

/-- The mutable state of the orchestrator: the `agents` map (keyed by the
agent id used at creation time), the `agentInstances` map, the
`PerformanceTracker` metrics map, the uuid-freshness counter, the
`isRunning` flag, and the log of emitted events. -/
structure OrchState where
  agents : List (String × AgentDef)
  agentInstances : List (Nat × AgentInstance)
  tracker : List (Nat × TrackerMetrics)
  nextId : Nat
  isRunning : Bool
  events : List Event
  deriving DecidableEq, Repr

/-- JavaScript `Map.set`: replace the value in place when the key is
present, append a new entry otherwise. -/
def setEntry {α : Type} (l : List (Nat × α)) (k : Nat) (v : α) : List (Nat × α) :=
  if l.any (fun p => decide (p.1 = k)) then
    l.map (fun p => if p.1 = k then (p.1, v) else p)
  else
    l ++ [(k, v)]

/-- Mutation of the instance object stored under key `k` (JavaScript object
aliasing: the object held by the map is updated in place). -/
def updateEntry (l : List (Nat × AgentInstance)) (k : Nat)
    (f : AgentInstance → AgentInstance) : List (Nat × AgentInstance) :=
  l.map (fun p => if p.1 = k then (p.1, f p.2) else p)

/-- Model of `AgentOrchestrator.updateAgentStatus(instanceId, status)`: a no-op when
the instance id is unknown (`if (!instance) return`); otherwise sets the
status field and emits an `agent-status-changed` event. The SQL `UPDATE` is
a write to the external store; the surrounding `try`/`catch` only logs, so
the operation never throws. -/
def updateAgentStatus (s : OrchState) (instanceId : Nat) (status : AgentStatus) : OrchState :=
  match getEntry s.agentInstances instanceId with
  | none => s
  | some inst =>
      { s with
        agentInstances := updateEntry s.agentInstances instanceId
          (fun i => { i with status := status }),
        events := s.events ++
          [Event.statusChanged instanceId inst.agentId status inst.userId] }

/-- Direct assignment `this.status = ...` performed by `BaseAgent.run` on
the instance object (no event, no database write). -/
def setInstanceStatus (s : OrchState) (instanceId : Nat) (status : AgentStatus) : OrchState :=
  { s with
    agentInstances := updateEntry s.agentInstances instanceId
      (fun i => { i with status := status }) }

/-- Model of `this.updateMetrics(success, executionTime)` performed by
`BaseAgent.run` on the instance object. -/
def updateInstanceMetrics (s : OrchState) (instanceId : Nat) (success : Bool)
    (executionTime : ℚ) : OrchState :=
  { s with
    agentInstances := updateEntry s.agentInstances instanceId
      (fun i => { i with metrics := BaseAgent.updateMetrics i.metrics success executionTime }) }

/-- A conflict record pushed by `checkConflicts`. -/
structure ConflictRecord where
  type : String
  instance1 : AgentInstance
  instance2 : AgentInstance
  severity : String
  deriving DecidableEq, Repr

/-- Model of `AgentOrchestrator.checkConflicts(instance)`: look up the coordination
rule under the `agentId` of the instance (an absent rule yields no conflicts);
then scan the whole `agentInstances` map and emit one record of severity
`medium` for every entry with the same user, status `running`, and an
`agentId` contained in the conflict list of the rule. -/
def checkConflicts (s : OrchState) (inst : AgentInstance) : List ConflictRecord :=
  match coordinationRules inst.agentId with
  | none => []
  | some rules =>
      s.agentInstances.filterMap (fun p =>
        if p.2.userId = inst.userId ∧ p.2.status = AgentStatus.running ∧
            p.2.agentId ∈ rules.conflicts then
          some { type := "agent-conflict", instance1 := inst, instance2 := p.2,
                 severity := "medium" }
        else none)

/-- The action decided for one conflict. -/
structure Resolution where
  action : String
  target : Option Nat
  deriving DecidableEq, Repr

/-- Model of `ConflictResolver.resolve(conflict)`: conflicts of type
`agent-conflict` resolve to pausing `instance2`; any other type resolves to
queueing. -/
def ConflictResolver.resolve (c : ConflictRecord) : Resolution :=
  if c.type = "agent-conflict" then { action := "pause", target := some c.instance2.id }
  else { action := "queue", target := none }

/-- Model of `AgentOrchestrator.pauseAgent(instanceId)`: looks the instance up and
tests `instance && instance.pause`; since no agent class defines `pause`
(see `instanceHasPause`) the guard fails and nothing happens. Were the
method present, the `pause` of the instance would be awaited and the status set
to `paused`. -/
def pauseAgent (s : OrchState) (instanceId : Nat) : OrchState :=
  match getEntry s.agentInstances instanceId with
  | none => s
  | some inst =>
      if instanceHasPause inst then updateAgentStatus s instanceId AgentStatus.paused
      else s

/-- Model of `AgentOrchestrator.queueAgent(instanceId)`: only emits an
`agent-queued` event. -/
def queueAgent (s : OrchState) (instanceId : Nat) : OrchState :=
  { s with events := s.events ++ [Event.agentQueued instanceId] }

/-- Body of the `resolveConflicts` loop for one conflict record: ask the
resolver for an action; a `pause` action pauses the `instance2` of the record, a
`queue` action queues the candidate instance, anything else does nothing. -/
def resolveStep (inst : AgentInstance) (st : OrchState) (c : ConflictRecord) : OrchState :=
  let r := ConflictResolver.resolve c
  if r.action = "pause" then pauseAgent st c.instance2.id
  else if r.action = "queue" then queueAgent st inst.id
  else st

/-- Model of `AgentOrchestrator.resolveConflicts(conflicts, instance)`: resolve the
records in order. -/
def resolveConflicts (s : OrchState) (conflicts : List ConflictRecord)
    (inst : AgentInstance) : OrchState :=
  conflicts.foldl (resolveStep inst) s

/-- Model of `PerformanceTracker.recordExecution(instanceId, result)`: fetch (or
default-initialise) the record for the instance, increment
`totalExecutions`, count the execution as successful when the result object
carries no truthy `error` key (`result && !result.error`; the result object
itself is always truthy), and add `result.executionTime || 0` to the total
execution time. -/
def PerformanceTracker.recordExecution (tracker : List (Nat × TrackerMetrics))
    (instanceId : Nat) (result : RunResult) : List (Nat × TrackerMetrics) :=
  let m := (getEntry tracker instanceId).getD
    { totalExecutions := 0, successfulExecutions := 0, totalExecutionTime := 0 }
  setEntry tracker instanceId
    { totalExecutions := m.totalExecutions + 1,
      successfulExecutions := m.successfulExecutions + (if result.errorField then 0 else 1),
      totalExecutionTime := m.totalExecutionTime + result.executionTime.getD 0 }

/-- The object returned by `PerformanceTracker.getUserPerformance`. -/
structure UserPerformance where
  totalAgents : Nat
  activeAgents : Nat
  averagePerformance : ℚ
  totalExecutions : Nat
  successRate : ℚ
  deriving DecidableEq, Repr

/-- Model of `PerformanceTracker.getUserPerformance(userId)`: returns a literal
object of fixed numbers; neither the recorded tracker metrics nor the
`userId` argument are consulted. -/
def PerformanceTracker.getUserPerformance (_tracker : List (Nat × TrackerMetrics))
    (_userId : String) : UserPerformance :=
  { totalAgents := 4, activeAgents := 3, averagePerformance := 92 / 100,
    totalExecutions := 156, successRate := 94 / 100 }

/-- Model of `AgentOrchestrator.getAgentPerformance(userId)`: delegates to the
tracker. -/
def getAgentPerformance (s : OrchState) (userId : String) : UserPerformance :=
  PerformanceTracker.getUserPerformance s.tracker userId

/-- Model of `AgentOrchestrator.createAgentInstance(userId, agentId, config)`: fails
when `agentId` is not a key of the `agents` map; otherwise builds a fresh
instance (fresh uuid, merged configuration, status `idle`, initial
metrics), stores it in `agentInstances`, upserts the external
`user_agents` row (external store, not modelled), and emits an
`agent-created` and an `agent-status-changed` event. The `catch` block
rethrows, so the failure surfaces to the caller with no state change. -/
def createAgentInstance (s : OrchState) (userId agentId : String) (config : Config) :
    OrchState × Except String Nat :=
  match getEntry s.agents agentId with
  | none => (s, Except.error ("Agent " ++ agentId ++ " not found"))
  | some agentDef =>
      let instanceId := s.nextId
      let inst : AgentInstance :=
        { id := instanceId, userId := userId, agentId := agentId,
          config := mergeConfig agentDef.configuration config,
          status := AgentStatus.idle, metrics := BaseAgent.initialMetrics }
      ({ s with
          agentInstances := setEntry s.agentInstances instanceId inst,
          nextId := s.nextId + 1,
          events := s.events ++
            [Event.agentCreated instanceId userId agentId,
             Event.statusChanged instanceId agentId AgentStatus.idle userId] },
       Except.ok instanceId)

/-- Model of `AgentOrchestrator.runAgent(instanceId, params)` together with the
`BaseAgent.run` it awaits. Sequence: look the instance up (an unknown id
throws, the `catch` calls `updateAgentStatus(instanceId, st_error)` — a
no-op for the absent id — and rethrows); detect conflicts and resolve them
when any were found; `updateAgentStatus(running)`; then `instance.run`:
field write `status := running`, the Execution Unit invocation (oracle
`outcome` with wall-clock `duration`), `updateMetrics`, and the `finally`
field write `status := idle`. On success the orchestrator records the
execution with the tracker, sets the status to `idle` and emits completion
events; on failure the `catch` sets the status to `error` and rethrows. -/
def runAgent (s : OrchState) (instanceId : Nat) (outcome : ExecOutcome) (duration : ℚ) :
    OrchState × Except String RunResult :=
  match getEntry s.agentInstances instanceId with
  | none =>
      (updateAgentStatus s instanceId AgentStatus.error,
       Except.error ("Agent instance " ++ toString instanceId ++ " not found"))
  | some inst =>
      let conflicts := checkConflicts s inst
      let s1 := if conflicts.length > 0 then resolveConflicts s conflicts inst else s
      let s2 := updateAgentStatus s1 instanceId AgentStatus.running
      let s3 := setInstanceStatus s2 instanceId AgentStatus.running
      match outcome with
      | ExecOutcome.success result =>
          let s4 := updateInstanceMetrics s3 instanceId true duration
          let s5 := setInstanceStatus s4 instanceId AgentStatus.idle
          let s6 := { s5 with
            tracker := PerformanceTracker.recordExecution s5.tracker instanceId result }
          let s7 := updateAgentStatus s6 instanceId AgentStatus.idle
          ({ s7 with events := s7.events ++
              [Event.agentCompleted instanceId result,
               Event.agentResult instanceId inst.agentId result] },
           Except.ok result)
      | ExecOutcome.failure err =>
          let s4 := updateInstanceMetrics s3 instanceId false duration
          let s5 := setInstanceStatus s4 instanceId AgentStatus.idle
          let s6 := updateAgentStatus s5 instanceId AgentStatus.error
          (s6, Except.error err)

/-- One row of the scheduler eligibility query (`auto_run_enabled`, status
`idle`, interval elapsed — evaluated by the external store, so the row list
is an oracle input to the tick). -/
structure AutoRunRow where
  user_id : String
  agent_id : String
  settings : Config
  deriving DecidableEq, Repr

/-- Body of the `for` loop of the scheduler tick: for each eligible row, create a
fresh instance and run it. The whole loop sits inside one `try`/`catch`
(`Scheduler error`), so the first exception — from `createAgentInstance` or
from `runAgent` — ends the loop; the remaining rows of this tick are not
processed. The `oracle` supplies the Execution Unit outcome and duration for
the k-th row processed. -/
def schedulerTickGo (oracle : Nat → ExecOutcome × ℚ) :
    OrchState → List AutoRunRow → Nat → OrchState
  | s, [], _ => s
  | s, row :: rest, k =>
      match createAgentInstance s row.user_id row.agent_id row.settings with
      | (s', Except.error _) => s'
      | (s', Except.ok instanceId) =>
          match runAgent s' instanceId (oracle k).1 (oracle k).2 with
          | (s'', Except.error _) => s''
          | (s'', Except.ok _) => schedulerTickGo oracle s'' rest (k + 1)

/-- One tick of the cron job installed by `startScheduler`: do nothing
unless `isRunning`, otherwise process the eligible rows. -/
def schedulerTick (s : OrchState) (rows : List AutoRunRow)
    (oracle : Nat → ExecOutcome × ℚ) : OrchState :=
  if s.isRunning then schedulerTickGo oracle s rows 0 else s

/-! Concrete scenario states used to evaluate the operations. Every state
below is reachable: it is the constructor state (an `agents` map as loaded
by `initializeAgents` from the external catalog, empty instance and tracker
maps, `isRunning := true` after `startScheduler`) followed by the listed
operations. -/

/-- A result payload used by the concrete scenarios. -/
def sampleResult : RunResult := { payload := "ok" }

/-- Catalog entry for the mail summarizer unit. -/
def mailDef : AgentDef := { type := "mail-summarizer", configuration := [] }

/-- Catalog entry for the meeting agent unit. -/
def meetingDef : AgentDef := { type := "meeting-agent", configuration := [] }

/-- Catalog entry for the task router unit. -/
def routerDef : AgentDef := { type := "task-router", configuration := [] }

/-- A state with no registered units and no instances. -/
def emptyState : OrchState :=
  { agents := [], agentInstances := [], tracker := [], nextId := 0,
    isRunning := true, events := [] }

/-- C1 scenario: a mail-summarizer instance that is mid-run (its status is
`running`, as set by a first, still in-flight `runAgent` call). -/
def c1Running : AgentInstance :=
  { id := 0, userId := "u1", agentId := "mail-summarizer", config := [],
    status := AgentStatus.running, metrics := BaseAgent.initialMetrics }

/-- C1 scenario state. -/
def c1State : OrchState :=
  { agents := [("mail-summarizer", mailDef)], agentInstances := [(0, c1Running)],
    tracker := [], nextId := 1, isRunning := true, events := [] }

/-- C2 scenario state: one registered unit, no instances yet. -/
def c2State : OrchState :=
  { agents := [("meeting-agent", meetingDef)], agentInstances := [], tracker := [],
    nextId := 0, isRunning := true, events := [] }

/-- C3 scenario: a running meeting-agent instance of user `u1`. -/
def c3Meeting : AgentInstance :=
  { id := 0, userId := "u1", agentId := "meeting-agent", config := [],
    status := AgentStatus.running, metrics := BaseAgent.initialMetrics }

/-- C3 scenario: an idle task-router instance of the same user. -/
def c3Router : AgentInstance :=
  { id := 1, userId := "u1", agentId := "task-router", config := [],
    status := AgentStatus.idle, metrics := BaseAgent.initialMetrics }

/-- C3 scenario state. -/
def c3State : OrchState :=
  { agents := [("meeting-agent", meetingDef), ("task-router", routerDef)],
    agentInstances := [(0, c3Meeting), (1, c3Router)], tracker := [], nextId := 2,
    isRunning := true, events := [] }

/-- C4 scenario: an existing idle meeting-agent instance for (u1, meeting-agent). -/
def c4Existing : AgentInstance :=
  { id := 0, userId := "u1", agentId := "meeting-agent", config := [],
    status := AgentStatus.idle, metrics := BaseAgent.initialMetrics }

/-- C4 scenario state. -/
def c4State : OrchState :=
  { agents := [("meeting-agent", meetingDef)], agentInstances := [(0, c4Existing)],
    tracker := [], nextId := 1, isRunning := true, events := [] }

/-- C5 scenario: an idle instance whose next execution will fail. -/
def c5Inst : AgentInstance :=
  { id := 0, userId := "u1", agentId := "mail-summarizer", config := [],
    status := AgentStatus.idle, metrics := BaseAgent.initialMetrics }

/-- C5 scenario state. -/
def c5State : OrchState :=
  { agents := [("mail-summarizer", mailDef)], agentInstances := [(0, c5Inst)],
    tracker := [], nextId := 1, isRunning := true, events := [] }

/-- C6 scenario state: two registered units, no instances. -/
def c6State : OrchState :=
  { agents := [("meeting-agent", meetingDef), ("mail-summarizer", mailDef)],
    agentInstances := [], tracker := [], nextId := 0, isRunning := true, events := [] }

/-- C6 scenario: first eligible auto-run row (user `u1`). -/
def c6row1 : AutoRunRow := { user_id := "u1", agent_id := "meeting-agent", settings := [] }

/-- C6 scenario: second eligible auto-run row (user `u2`). -/
def c6row2 : AutoRunRow := { user_id := "u2", agent_id := "mail-summarizer", settings := [] }

/-- C6 scenario oracle: the first dispatched run fails, any later one
succeeds. -/
def c6oracle (k : Nat) : ExecOutcome × ℚ :=
  if k = 0 then (ExecOutcome.failure "boom", 1) else (ExecOutcome.success sampleResult, 1)

/-- C6 scenario: the state after the instance of the first row was created. -/
def c6sA : OrchState := (createAgentInstance c6State "u1" "meeting-agent" []).1

/-- C6 scenario: the state after the run of the first row failed. -/
def c6sB : OrchState := (runAgent c6sA 0 (ExecOutcome.failure "boom") 1).1

/-- C7 scenario: a running meeting-agent instance of user `u1`. -/
def c7Meeting : AgentInstance :=
  { id := 0, userId := "u1", agentId := "meeting-agent", config := [],
    status := AgentStatus.running, metrics := BaseAgent.initialMetrics }

/-- C7 scenario: an idle task-router instance of the same user, the
candidate of the conflict scan. -/
def c7Router : AgentInstance :=
  { id := 1, userId := "u1", agentId := "task-router", config := [],
    status := AgentStatus.idle, metrics := BaseAgent.initialMetrics }

/-- C7 scenario state. -/
def c7State : OrchState :=
  { agents := [("meeting-agent", meetingDef), ("task-router", routerDef)],
    agentInstances := [(0, c7Meeting), (1, c7Router)], tracker := [], nextId := 2,
    isRunning := true, events := [] }

/-! Supporting lemmas about the association-list combinators and the
conflict-resolution helpers. -/

theorem getEntry_updateEntry (l : List (Nat × AgentInstance)) (k : Nat)
    (f : AgentInstance → AgentInstance) :
    getEntry (updateEntry l k f) k = (getEntry l k).map f := by
  induction l with
  | nil => rfl
  | cons p t ih =>
      by_cases hp : p.1 = k
      · simp [updateEntry, getEntry, hp]
      · simpa [updateEntry, getEntry, hp] using ih

theorem pauseAgent_eq_self (s : OrchState) (k : Nat) : pauseAgent s k = s := by
  unfold pauseAgent
  cases getEntry s.agentInstances k with
  | none => rfl
  | some inst => simp [instanceHasPause]

theorem resolveStep_agent_conflict (inst : AgentInstance) (s : OrchState)
    (c : ConflictRecord) (hc : c.type = "agent-conflict") : resolveStep inst s c = s := by
  simp [resolveStep, ConflictResolver.resolve, hc, pauseAgent_eq_self]

theorem resolveConflicts_agent_conflicts (cs : List ConflictRecord) (s : OrchState)
    (inst : AgentInstance) (h : ∀ c ∈ cs, c.type = "agent-conflict") :
    resolveConflicts s cs inst = s := by
  induction cs generalizing s with
  | nil => rfl
  | cons c rest ih =>
      have hc : c.type = "agent-conflict" := h c (by simp)
      show List.foldl (resolveStep inst) s (c :: rest) = s
      rw [List.foldl_cons, resolveStep_agent_conflict inst s c hc]
      exact ih s (fun d hd => h d (by simp [hd]))

theorem checkConflicts_type_eq (s : OrchState) (inst : AgentInstance) :
    ∀ c ∈ checkConflicts s inst, c.type = "agent-conflict" := by
  intro c hc
  unfold checkConflicts at hc
  cases hr : coordinationRules inst.agentId with
  | none => rw [hr] at hc; cases hc
  | some rules =>
      rw [hr, List.mem_filterMap] at hc
      obtain ⟨p, _, hp⟩ := hc
      split at hp
      · cases hp; rfl
      · cases hp

theorem resolveConflicts_checkConflicts (s s0 : OrchState) (i inst : AgentInstance) :
    resolveConflicts s (checkConflicts s0 i) inst = s :=
  resolveConflicts_agent_conflicts (checkConflicts s0 i) s inst (checkConflicts_type_eq s0 i)

theorem updateAgentStatus_tracker (s : OrchState) (k : Nat) (st : AgentStatus) :
    (updateAgentStatus s k st).tracker = s.tracker := by
  unfold updateAgentStatus
  cases getEntry s.agentInstances k <;> rfl

theorem setInstanceStatus_tracker (s : OrchState) (k : Nat) (st : AgentStatus) :
    (setInstanceStatus s k st).tracker = s.tracker := rfl

theorem updateInstanceMetrics_tracker (s : OrchState) (k : Nat) (b : Bool) (d : ℚ) :
    (updateInstanceMetrics s k b d).tracker = s.tracker := rfl

theorem updateAgentStatus_getEntry (s : OrchState) (k : Nat) (st : AgentStatus) :
    getEntry (updateAgentStatus s k st).agentInstances k =
      (getEntry s.agentInstances k).map (fun i => { i with status := st }) := by
  unfold updateAgentStatus
  cases hg : getEntry s.agentInstances k with
  | none => simp [hg]
  | some inst => simp [getEntry_updateEntry, hg]

theorem setInstanceStatus_getEntry (s : OrchState) (k : Nat) (st : AgentStatus) :
    getEntry (setInstanceStatus s k st).agentInstances k =
      (getEntry s.agentInstances k).map (fun i => { i with status := st }) := by
  unfold setInstanceStatus
  simpa using getEntry_updateEntry s.agentInstances k _

theorem updateInstanceMetrics_getEntry (s : OrchState) (k : Nat) (b : Bool) (d : ℚ) :
    getEntry (updateInstanceMetrics s k b d).agentInstances k =
      (getEntry s.agentInstances k).map
        (fun i => { i with metrics := BaseAgent.updateMetrics i.metrics b d }) := by
  unfold updateInstanceMetrics
  simpa using getEntry_updateEntry s.agentInstances k _

/-! The claim theorems. -/

/-- C8: starting from zero recorded runs, recording one successful and one
failed execution — in either order — through `BaseAgent.updateMetrics`
(the incremental-mean update that maintains the per-instance `successRate`
and `totalRuns` without stored history) yields `successRate = 1/2` and
`totalRuns = 2`, whatever the prior rate, prior mean and the two
durations. -/
theorem updateMetrics_one_success_one_failure (m : AgentMetrics) (h : m.totalRuns = 0)
    (d1 d2 : ℚ) :
    ((BaseAgent.updateMetrics (BaseAgent.updateMetrics m true d1) false d2).successRate = 1 / 2 ∧
     (BaseAgent.updateMetrics (BaseAgent.updateMetrics m true d1) false d2).totalRuns = 2) ∧
    ((BaseAgent.updateMetrics (BaseAgent.updateMetrics m false d1) true d2).successRate = 1 / 2 ∧
     (BaseAgent.updateMetrics (BaseAgent.updateMetrics m false d1) true d2).totalRuns = 2) := by
  simp [BaseAgent.updateMetrics, h]
  norm_num

/-- C8 witness: the theorem applied to the constructor metrics of
`BaseAgent` and two concrete durations. -/
theorem updateMetrics_one_success_one_failure_witness :
    BaseAgent.initialMetrics.totalRuns = 0 ∧
    (BaseAgent.updateMetrics (BaseAgent.updateMetrics BaseAgent.initialMetrics true 3)
        false 5).successRate = 1 / 2 ∧
    (BaseAgent.updateMetrics (BaseAgent.updateMetrics BaseAgent.initialMetrics true 3)
        false 5).totalRuns = 2 :=
  ⟨rfl,
   (updateMetrics_one_success_one_failure BaseAgent.initialMetrics rfl 3 5).1.1,
   (updateMetrics_one_success_one_failure BaseAgent.initialMetrics rfl 3 5).1.2⟩

/-- C9: the user-level performance query returns the fixed record
(totalAgents 4, activeAgents 3, averagePerformance 0.92,
totalExecutions 156, successRate 0.94) for every orchestrator state and
every userId; in particular its output is independent of the userId
argument and of every previously recorded execution. -/
theorem getAgentPerformance_constant (s s' : OrchState) (userId userId' : String) :
    getAgentPerformance s userId =
      { totalAgents := 4, activeAgents := 3, averagePerformance := 92 / 100,
        totalExecutions := 156, successRate := 94 / 100 } ∧
    getAgentPerformance s userId = getAgentPerformance s' userId' :=
  ⟨rfl, rfl⟩

/-- C10: for an instanceId absent from the instance registry the
status-update operation returns the state unchanged — no registry
mutation, no appended status-changed event — and, being total, raises no
error (the source guard `if (!instance) return` fires before any side
effect). -/
theorem updateAgentStatus_unknown_id (s : OrchState) (instanceId : Nat)
    (status : AgentStatus) (h : getEntry s.agentInstances instanceId = none) :
    updateAgentStatus s instanceId status = s := by
  unfold updateAgentStatus
  rw [h]

/-- C10 witness: the theorem applied to the empty state and a concrete
unknown id. -/
theorem updateAgentStatus_unknown_id_witness :
    getEntry emptyState.agentInstances 7 = none ∧
    updateAgentStatus emptyState 7 AgentStatus.paused = emptyState :=
  ⟨rfl, updateAgentStatus_unknown_id emptyState 7 AgentStatus.paused rfl⟩

/-- C1: evaluation of the run operation at the failing input. In `c1State`
instance 0 already has status `running` (a first `runAgent` call is
in flight), yet a second `runAgent` on the same id does not observe the
status — `runAgent` contains no status check and no compare-and-swap —
and performs a full second execution: it returns the
result, records an execution with the Performance Tracker, increments the
per-instance run counter, and finally overwrites the status with `idle`,
clobbering the state of the in-flight first call. -/
theorem runAgent_executes_despite_running_status :
    (getEntry c1State.agentInstances 0).map AgentInstance.status = some AgentStatus.running ∧
    (runAgent c1State 0 (ExecOutcome.success sampleResult) 5).2 = Except.ok sampleResult ∧
    (getEntry (runAgent c1State 0 (ExecOutcome.success sampleResult) 5).1.tracker 0).map
      TrackerMetrics.totalExecutions = some 1 ∧
    (getEntry (runAgent c1State 0 (ExecOutcome.success sampleResult) 5).1.agentInstances 0).map
      (fun i => i.metrics.totalRuns) = some 1 ∧
    (getEntry (runAgent c1State 0 (ExecOutcome.success sampleResult) 5).1.agentInstances 0).map
      AgentInstance.status = some AgentStatus.idle :=
  ⟨rfl, rfl, rfl, rfl, rfl⟩

/-- C2: evaluation at the failing input. Two `createAgentInstance` calls
for the same (user, unit-type) pair both succeed, and afterwards the
instance registry holds two distinct instances for the pair
(u1, meeting-agent) — the at-most-one-instance-per-pair invariant does not
hold at this reachable state. -/
theorem createAgentInstance_duplicates_pair :
    ((createAgentInstance (createAgentInstance c2State "u1" "meeting-agent" []).1
        "u1" "meeting-agent" []).1.agentInstances.filter
      (fun p => p.2.userId == "u1" && p.2.agentId == "meeting-agent")).length = 2 ∧
    (createAgentInstance c2State "u1" "meeting-agent" []).2 = Except.ok 0 ∧
    (createAgentInstance (createAgentInstance c2State "u1" "meeting-agent" []).1
        "u1" "meeting-agent" []).2 = Except.ok 1 :=
  ⟨rfl, rfl, rfl⟩

/-- C3: evaluation at the failing input. In `c3State`, the
meeting-agent instance (id 0) is `running` and the rule table says
task-router conflicts with meeting-agent, so running the task-router
instance (id 1) detects exactly one conflict and the resolver answers with
a `pause` action for instance 0 — yet after the run, instance 0 still has
status `running`: `pauseAgent` finds no `pause` method on the instance
(`instanceHasPause`) and silently does nothing. -/
theorem runAgent_conflict_leaves_other_running :
    (checkConflicts c3State c3Router).map (fun c => c.instance2.id) = [0] ∧
    (checkConflicts c3State c3Router).map
      (fun c => (ConflictResolver.resolve c).action) = ["pause"] ∧
    (runAgent c3State 1 (ExecOutcome.success sampleResult) 5).2 = Except.ok sampleResult ∧
    (getEntry (runAgent c3State 1 (ExecOutcome.success sampleResult) 5).1.agentInstances 0).map
      AgentInstance.status = some AgentStatus.running :=
  ⟨rfl, rfl, rfl, rfl⟩

/-- C4 counterexample: in `c4State` an instance for (u1, meeting-agent)
already exists with id 0, yet `createAgentInstance` for the same pair does
not fail with AlreadyExists — it succeeds — and it does not keep the
identity either: it returns the fresh instance id 1 and registers a second
instance under it, while the old instance stays untouched. -/
theorem createAgentInstance_existing_pair_new_identity :
    (c4State.agentInstances.filter
      (fun p => p.2.userId == "u1" && p.2.agentId == "meeting-agent")).length = 1 ∧
    (createAgentInstance c4State "u1" "meeting-agent" []).2 = Except.ok 1 ∧
    (getEntry (createAgentInstance c4State "u1" "meeting-agent" []).1.agentInstances 1).isSome =
      true ∧
    getEntry (createAgentInstance c4State "u1" "meeting-agent" []).1.agentInstances 0 =
      some c4Existing :=
  ⟨rfl, rfl, rfl, rfl⟩

/-- C5 counterexample: a failing run on the instance of `c5State` surfaces
the error and sets the status to `error`, but the Performance Tracker
`recordExecution` is never invoked — the tracker map is still empty
afterwards, so the failure is not recorded before the error is
re-surfaced. -/
theorem runAgent_failure_not_recorded :
    (runAgent c5State 0 (ExecOutcome.failure "boom") 5).2 = Except.error "boom" ∧
    (getEntry (runAgent c5State 0 (ExecOutcome.failure "boom") 5).1.agentInstances 0).map
      AgentInstance.status = some AgentStatus.error ∧
    (runAgent c5State 0 (ExecOutcome.failure "boom") 5).1.tracker = [] :=
  ⟨rfl, rfl, rfl⟩

/-- C6 counterexample: a tick with two eligible rows in which the first
run of the first row fails. The failure aborts the loop — the second row is neither
created nor triggered: afterwards the registry holds a single instance and
none belonging to u2, the user of the second row. -/
theorem schedulerTick_failure_skips_remaining :
    (schedulerTick c6State [c6row1, c6row2] c6oracle).agentInstances.length = 1 ∧
    ((schedulerTick c6State [c6row1, c6row2] c6oracle).agentInstances.all
      (fun p => p.2.userId != "u2")) = true :=
  ⟨rfl, rfl⟩

/-- C4 amended: when the unit-type is registered, `createAgentInstance`
never fails with AlreadyExists — whether or not an instance for
(userId, unitType) already exists, it succeeds, returns the fresh id, and
appends a second instance to the registry, leaving every existing entry
(in particular the existing instance for the pair and its id) unchanged;
only the persisted settings row is idempotently upserted. The returned
identity therefore changes on every call. -/
theorem createAgentInstance_registered_appends_fresh (s : OrchState)
    (userId agentId : String) (config : Config) (d : AgentDef)
    (h : getEntry s.agents agentId = some d)
    (hfresh : s.agentInstances.any (fun p => decide (p.1 = s.nextId)) = false) :
    (createAgentInstance s userId agentId config).2 = Except.ok s.nextId ∧
    (createAgentInstance s userId agentId config).1.agentInstances =
      s.agentInstances ++
        [(s.nextId,
          { id := s.nextId, userId := userId, agentId := agentId,
            config := mergeConfig d.configuration config, status := AgentStatus.idle,
            metrics := BaseAgent.initialMetrics })] ∧
    (createAgentInstance s userId agentId config).1.nextId = s.nextId + 1 := by
  unfold createAgentInstance
  rw [h]
  refine ⟨rfl, ?_, rfl⟩
  simp [setEntry, hfresh]

/-- C4 amended witness: the theorem applied to the state with an existing
(u1, meeting-agent) instance. -/
theorem createAgentInstance_registered_appends_fresh_witness :
    getEntry c4State.agents "meeting-agent" = some meetingDef ∧
    (createAgentInstance c4State "u1" "meeting-agent" []).2 = Except.ok c4State.nextId ∧
    (createAgentInstance c4State "u1" "meeting-agent" []).1.nextId = c4State.nextId + 1 :=
  ⟨rfl,
   (createAgentInstance_registered_appends_fresh c4State "u1" "meeting-agent" []
     meetingDef rfl rfl).1,
   (createAgentInstance_registered_appends_fresh c4State "u1" "meeting-agent" []
     meetingDef rfl rfl).2.2⟩

theorem runAgent_failure_eq (s : OrchState) (k : Nat) (inst : AgentInstance)
    (h : getEntry s.agentInstances k = some inst) (err : String) (d : ℚ) :
    runAgent s k (ExecOutcome.failure err) d =
      (updateAgentStatus
        (setInstanceStatus
          (updateInstanceMetrics
            (setInstanceStatus (updateAgentStatus s k AgentStatus.running) k
              AgentStatus.running)
            k false d)
          k AgentStatus.idle)
        k AgentStatus.error,
       Except.error err) := by
  have hres : (if (checkConflicts s inst).length > 0
      then resolveConflicts s (checkConflicts s inst) inst else s) = s := by
    split
    · exact resolveConflicts_checkConflicts s s inst inst
    · rfl
  simp only [runAgent, h, hres]

/-- C5 amended: for every state in which the instance exists, a failing
Execution Unit invocation surfaces the error to the caller and sets the
status of the instance to `error`, but the
`recordExecution` is not invoked for the failing run — the tracker map is
exactly as before; only the own `BaseAgent` metrics of the instance record the
failure. -/
theorem runAgent_failure_sets_error_skips_tracker (s : OrchState) (k : Nat)
    (inst : AgentInstance) (h : getEntry s.agentInstances k = some inst)
    (err : String) (d : ℚ) :
    (runAgent s k (ExecOutcome.failure err) d).2 = Except.error err ∧
    (runAgent s k (ExecOutcome.failure err) d).1.tracker = s.tracker ∧
    (getEntry (runAgent s k (ExecOutcome.failure err) d).1.agentInstances k).map
      AgentInstance.status = some AgentStatus.error := by
  rw [runAgent_failure_eq s k inst h err d]
  refine ⟨rfl, ?_, ?_⟩
  · rw [updateAgentStatus_tracker, setInstanceStatus_tracker, updateInstanceMetrics_tracker,
      setInstanceStatus_tracker, updateAgentStatus_tracker]
  · rw [updateAgentStatus_getEntry, setInstanceStatus_getEntry, updateInstanceMetrics_getEntry,
      setInstanceStatus_getEntry, updateAgentStatus_getEntry, h]
    rfl

/-- C5 amended witness: the theorem applied to the concrete one-instance
state. -/
theorem runAgent_failure_sets_error_skips_tracker_witness :
    getEntry c5State.agentInstances 0 = some c5Inst ∧
    (runAgent c5State 0 (ExecOutcome.failure "oops") 2).2 = Except.error "oops" ∧
    (runAgent c5State 0 (ExecOutcome.failure "oops") 2).1.tracker = c5State.tracker :=
  ⟨rfl,
   (runAgent_failure_sets_error_skips_tracker c5State 0 c5Inst rfl "oops" 2).1,
   (runAgent_failure_sets_error_skips_tracker c5State 0 c5Inst rfl "oops" 2).2.1⟩

/-- C6 amended: a failed auto-run of one instance aborts the processing
of the remaining eligible rows of that tick — the tick state is the same
whatever rows follow the failing one, because the catch sits around the
whole loop rather than around each iteration (the scheduler itself
survives to the next tick). -/
theorem schedulerTick_failure_aborts_rest (s s' s'' : OrchState) (row : AutoRunRow)
    (rest : List AutoRunRow) (oracle : Nat → ExecOutcome × ℚ) (instanceId : Nat)
    (e : String) (hrun : s.isRunning = true)
    (hc : createAgentInstance s row.user_id row.agent_id row.settings =
      (s', Except.ok instanceId))
    (hr : runAgent s' instanceId (oracle 0).1 (oracle 0).2 = (s'', Except.error e)) :
    schedulerTick s (row :: rest) oracle = s'' ∧
    schedulerTick s (row :: rest) oracle = schedulerTick s [row] oracle := by
  have hgo : ∀ l : List AutoRunRow, schedulerTickGo oracle s (row :: l) 0 = s'' := by
    intro l
    simp only [schedulerTickGo, hc]
    simp only [hr]
  constructor
  · simp [schedulerTick, hrun, hgo rest]
  · simp [schedulerTick, hrun, hgo rest, hgo []]

/-- C6 amended witness: the theorem applied to the two-row scenario whose
first run fails. -/
theorem schedulerTick_failure_aborts_rest_witness :
    c6State.isRunning = true ∧
    schedulerTick c6State [c6row1, c6row2] c6oracle =
      schedulerTick c6State [c6row1] c6oracle :=
  ⟨rfl,
   (schedulerTick_failure_aborts_rest c6State c6sA c6sB c6row1 [c6row2] c6oracle 0 "boom"
     rfl rfl rfl).2⟩

theorem self_not_mem_conflicts (t : String) (rules : CoordinationRule)
    (h : coordinationRules t = some rules) : t ∉ rules.conflicts := by
  unfold coordinationRules at h
  split at h
  · rename_i ht; cases h; subst ht; decide
  · split at h
    · rename_i ht; cases h; subst ht; decide
    · split at h
      · rename_i ht; cases h; subst ht; decide
      · split at h
        · rename_i ht; cases h; subst ht; decide
        · cases h

theorem filterMap_ite_eq_map_filter {α β : Type} (p : α → Prop) [DecidablePred p]
    (f : α → β) (l : List α) :
    l.filterMap (fun a => if p a then some (f a) else none) =
      (l.filter (fun a => decide (p a))).map f := by
  induction l with
  | nil => rfl
  | cons a t ih =>
      by_cases hp : p a
      · simp [hp, ih]
      · simp [hp, ih]

/-- C7: characterisation of the conflict scan. When the candidate
unit-type has no rule entry the scan returns the empty list; when it has
one, the scan returns exactly one record — of severity `medium`, with the
candidate as `instance1` — for each registry entry of the same user whose
status is `running` and whose unit-type lies in the conflict set of the
set, in registry order and with no other records; and no record ever pairs
the candidate with an instance of its own unit-type (so every matched
instance is another instance), since no unit-type of the rule table
conflicts with itself. -/
theorem checkConflicts_spec (s : OrchState) (inst : AgentInstance) :
    (coordinationRules inst.agentId = none → checkConflicts s inst = []) ∧
    (∀ rules, coordinationRules inst.agentId = some rules →
      checkConflicts s inst =
        (s.agentInstances.filter (fun p =>
          decide (p.2.userId = inst.userId ∧ p.2.status = AgentStatus.running ∧
            p.2.agentId ∈ rules.conflicts))).map
          (fun p =>
            { type := "agent-conflict", instance1 := inst, instance2 := p.2,
              severity := "medium" })) ∧
    (∀ c ∈ checkConflicts s inst,
      c.severity = "medium" ∧ c.instance1 = inst ∧ c.instance2.agentId ≠ inst.agentId) := by
  refine ⟨?_, ?_, ?_⟩
  · intro h
    unfold checkConflicts
    rw [h]
  · intro rules h
    unfold checkConflicts
    rw [h]
    exact filterMap_ite_eq_map_filter _ _ _
  · intro c hc
    unfold checkConflicts at hc
    cases hr : coordinationRules inst.agentId with
    | none => rw [hr] at hc; cases hc
    | some rules =>
        rw [hr, List.mem_filterMap] at hc
        obtain ⟨p, hmem, hp⟩ := hc
        split at hp
        · rename_i hcond
          obtain ⟨h1, h2, h3⟩ := hcond
          cases hp
          refine ⟨rfl, rfl, ?_⟩
          intro heq
          exact self_not_mem_conflicts inst.agentId rules hr (by rw [← heq]; exact h3)
        · cases hp

/-- C7 witness: the characterisation applied to the concrete state in
which the task-router candidate of u1 finds the running meeting-agent
instance. -/
theorem checkConflicts_spec_witness :
    checkConflicts c7State c7Router =
      (c7State.agentInstances.filter (fun p =>
        decide (p.2.userId = c7Router.userId ∧ p.2.status = AgentStatus.running ∧
          p.2.agentId ∈ ["meeting-agent"]))).map
        (fun p =>
          { type := "agent-conflict", instance1 := c7Router, instance2 := p.2,
            severity := "medium" }) ∧
    (checkConflicts c7State c7Router).map (fun c => c.instance2.id) = [0] :=
  ⟨(checkConflicts_spec c7State c7Router).2.1
      { dependencies := ["mail-summarizer"], conflicts := ["meeting-agent"], priority := 2 }
      rfl,
   rfl⟩

end OfficeAutomation
